import Mathlib

/-!
Verification development for the manager-interface client
(src/protocol.rs, src/repl.rs, src/main.rs).

The protocol data model is a direct shallow embedding of protocol.rs.
The channel session (repl.rs, ChannelRepl::new and handle_connection) is
embedded as follows:

* Byte payloads (Rust Vec<u8> / Bytes) are lists of naturals.
* The serde_json encoding of FrontendCommand values and the decoding of
  FrontendMessage payloads are abstracted as explicit function parameters
  (encC / decM); the session treats both as opaque, exactly as repl.rs
  does (it only calls to_vec / from_slice on them).
* The stateful event loop of handle_connection (repl.rs lines 77-123) is
  embedded as a recursive function over the list of events the
  tokio select loop observes, in the order it observes them: a command
  arriving on the command queue (together with the success of the
  subsequent framed.send, which in the source can fail with an I/O
  error), an inbound frame that arrived intact (paired with its decode
  result as a ManagementResponse, modelling serde_json::from_slice), an
  inbound frame error, or end of stream.  The loop produces the list of
  wire frames actually sent, the list of FrontendMessage values enqueued
  on the message queue, and the reason the loop stopped.
* The flag alive models whether the message-queue receiver side is still
  held by a consumer: message_tx.send succeeds iff it is (tokio mpsc
  semantics as used at repl.rs line 105).
* Rust string operations used by parse_command (trim, starts_with,
  trim_start_matches) are embedded over the character list of a String.
-/

deriving instance DecidableEq for Except

namespace ManagerInterface

abbrev Bytes := List Nat

/-- Embeds protocol.rs ChannelParticipant. -/
inductive ChannelParticipant
  | Actor (id : String)
  | External
deriving DecidableEq

/-- Embeds protocol.rs ManagementCommand (outbound requests). -/
inductive ManagementCommand
  | StartActor (manifest : String) (initial_state : Option Bytes)
  | NewStore
  | RequestActorMessage (id : String) (data : Bytes)
  | OpenChannel (actor_id : ChannelParticipant) (initial_message : Bytes)
  | SendOnChannel (channel_id : String) (message : Bytes)
  | CloseChannel (channel_id : String)
deriving DecidableEq

/-- Embeds protocol.rs ManagementResponse (inbound responses). -/
inductive ManagementResponse
  | StoreCreated (store_id : String)
  | ActorStarted (id : String)
  | RequestedMessage (id : String) (message : Bytes)
  | ChannelOpened (channel_id : String) (actor_id : ChannelParticipant)
  | MessageSent (channel_id : String)
  | ChannelMessage (channel_id : String) (sender_id : ChannelParticipant) (message : Bytes)
  | ChannelClosed (channel_id : String)
  | Error (message : String)
deriving DecidableEq

/-- Embeds protocol.rs FrontendCommand (REPL commands). -/
inductive FrontendCommand
  | StartActor
  | StopActor
  | BuildActor
  | ChangeRequest (description : String)
  | GetStatus
  | Disconnect
deriving DecidableEq

/-- Embeds protocol.rs OperationType. -/
inductive OperationType
  | Start
  | Stop
  | Build
  | Change
deriving DecidableEq

/-- Embeds protocol.rs OperationSummary. -/
structure OperationSummary where
  operation_id : String
  operation_type : OperationType
  description : String
deriving DecidableEq

/-- Embeds protocol.rs BuildEventType. -/
inductive BuildEventType
  | Log
  | Progress
  | CommandStarted
  | CommandOutput
  | BuildComplete
  | FileExtracted
deriving DecidableEq

/-- Embeds protocol.rs BuildEventDetails.  The f32 field percent_complete
is carried as an uninterpreted Float; the session never inspects it. -/
structure BuildEventDetails where
  level : Option String
  percent_complete : Option Float
  status : Option String
  command : Option String
  args : Option (List String)
  stdout : Option String
  stderr : Option String
  success : Option Bool
  error : Option String
  wasm_path : Option String
  wasm_hash : Option String

/-- Embeds protocol.rs FrontendMessage (inbound REPL payloads).  The f32
field percent_complete is carried as an uninterpreted Float. -/
inductive FrontendMessage
  | Status (child_running : Bool) (active_operations : List OperationSummary)
  | OperationStarted (operation_id : String) (operation_type : OperationType)
      (description : String)
  | OperationCompleted (operation_id : String) (success : Bool) (message : String)
  | OperationProgress (operation_id : String) (description : String)
      (percent_complete : Float)
  | ChildStarted (child_id : String)
  | ChildStopped (child_id : String)
  | Log (level : String) (message : String)
  | Error (code : String) (message : String)
  | BuildEvent (operation_id : String) (event_type : BuildEventType)
      (message : String) (details : BuildEventDetails)

/-- Models one readiness event observed by the tokio select loop of
handle_connection (repl.rs 77-123), in observation order:

* cmd c sendOk: command_rx.recv() yielded Some c; sendOk records whether
  the framed.send the loop then performs succeeds (false models a
  send-side I/O error, which the source propagates with the ? operator).
* frameOk r: framed.next() yielded Some(Ok(bytes)); r is the result of
  serde_json::from_slice of those bytes as a ManagementResponse
  (none models bytes that decode as no known variant).
* frameErr: framed.next() yielded Some(Err(e)).
* streamEnd: framed.next() yielded None. -/
inductive LoopEvent
  | cmd (c : FrontendCommand) (sendOk : Bool)
  | frameOk (r : Option ManagementResponse)
  | frameErr
  | streamEnd
deriving DecidableEq

/-- Reason the event loop of handle_connection stopped.  ranOut means the
modelled event list was exhausted with the loop still running. -/
inductive ExitKind
  | disconnected
  | channelClosed
  | frameError
  | endOfStream
  | receiverDropped
  | sendFailed
  | ranOut
deriving DecidableEq

/-- Observable outcome of one run of the event loop: the wire frames sent
(in send order), the FrontendMessage values enqueued on the message queue
(in enqueue order), and why the loop stopped. -/
@[ext] structure LoopOutput where
  wire : List ManagementCommand
  delivered : List FrontendMessage
  exit : ExitKind

/-- Embeds the steady-state event loop of handle_connection
(repl.rs 77-123).  cid is the channel id recorded at handshake, alive
models whether the message-queue receiver is still held, encC models
serde_json::to_vec on FrontendCommand, decM models serde_json::from_slice
as FrontendMessage. -/
def eventLoop (cid : String) (alive : Bool) (encC : FrontendCommand → Bytes)
    (decM : Bytes → Option FrontendMessage) : List LoopEvent → LoopOutput
  | [] => ⟨[], [], .ranOut⟩
  | .cmd c sendOk :: rest =>
    if c = FrontendCommand.Disconnect then
      if sendOk then ⟨[.CloseChannel cid], [], .disconnected⟩
      else ⟨[], [], .sendFailed⟩
    else if sendOk then
      let r := eventLoop cid alive encC decM rest
      ⟨.SendOnChannel cid (encC c) :: r.wire, r.delivered, r.exit⟩
    else ⟨[], [], .sendFailed⟩
  | .frameOk none :: rest => eventLoop cid alive encC decM rest
  | .frameOk (some resp) :: rest =>
    match resp with
    | .ChannelMessage _ _ b =>
      match decM b with
      | some m =>
        if alive then
          let r := eventLoop cid alive encC decM rest
          ⟨r.wire, m :: r.delivered, r.exit⟩
        else ⟨[], [], .receiverDropped⟩
      | none => eventLoop cid alive encC decM rest
    | .ChannelClosed _ => ⟨[], [], .channelClosed⟩
    | _ => eventLoop cid alive encC decM rest
  | .frameErr :: _ => ⟨[], [], .frameError⟩
  | .streamEnd :: _ => ⟨[], [], .endOfStream⟩

/-- Models the one frame handle_connection awaits as the handshake reply
(repl.rs 61-66): end of stream, a frame error, or an intact frame paired
with its decode result as a ManagementResponse. -/
inductive HandshakeFrame
  | streamEnd
  | ioErr
  | frame (r : Option ManagementResponse)
deriving DecidableEq

/-- Channel id the handshake reply carries, when it is a ChannelOpened. -/
def handshakeChannelId : HandshakeFrame → Option String
  | .frame (some (.ChannelOpened cid _)) => some cid
  | _ => none

/-- Errors handle_connection can return (repl.rs 47-126): the anyhow
errors of the handshake phase, and a propagated send-side I/O error. -/
inductive HCError
  | connectionClosed
  | frameFailure
  | decodeFailure
  | openRejected (message : String)
  | unexpectedResponse
  | ioFailure
deriving DecidableEq

/-- Bytes of the serialized initial message (repl.rs 49-51). -/
def initial_message_bytes : Bytes :=
  ("\x7b\"client_type\":\"frontend\"\x7d".toUTF8.toList.map (·.toNat))

/-- The OpenChannel handshake request handle_connection sends first
(repl.rs 53-59). -/
def openChannelCmd (actor_id : String) : ManagementCommand :=
  .OpenChannel (.Actor actor_id) initial_message_bytes

/-- Embeds handle_connection (repl.rs 42-126).  openSendOk models the
success of the initial framed.send of the OpenChannel request; hs is the
handshake reply frame; events drive the steady-state loop.  The first
component is every wire frame sent on the connection, in order; the
second is the function result: the loop outcome on success, or the
propagated anyhow error. -/
def handle_connection (actor_id : String) (openSendOk : Bool) (hs : HandshakeFrame)
    (alive : Bool) (encC : FrontendCommand → Bytes)
    (decM : Bytes → Option FrontendMessage) (events : List LoopEvent) :
    List ManagementCommand × Except HCError LoopOutput :=
  if openSendOk then
    match hs with
    | .streamEnd => ([openChannelCmd actor_id], .error .connectionClosed)
    | .ioErr => ([openChannelCmd actor_id], .error .frameFailure)
    | .frame none => ([openChannelCmd actor_id], .error .decodeFailure)
    | .frame (some r) =>
      match r with
      | .ChannelOpened cid _ =>
        let out := eventLoop cid alive encC decM events
        (openChannelCmd actor_id :: out.wire,
          if out.exit = ExitKind.sendFailed then .error .ioFailure else .ok out)
      | .Error m => ([openChannelCmd actor_id], .error (.openRejected m))
      | _ => ([openChannelCmd actor_id], .error .unexpectedResponse)
  else ([], .error .ioFailure)

/-- One connection's observable behaviour, as handle_connection sees it. -/
structure Connection where
  openSendOk : Bool
  handshake : HandshakeFrame
  events : List LoopEvent

/-- Error ChannelRepl::new can return: only the TcpStream::connect
failure at repl.rs line 16 is propagated by the constructor. -/
inductive ConnectError
  | connectFailed
deriving DecidableEq

/-- Embeds the ChannelRepl value returned by ChannelRepl::new
(repl.rs 9-12, 35-38), together with the eventual outcome of the
handler task it spawned; in the source that outcome never reaches the
caller — the task only prints it (repl.rs 28-32). -/
structure ChannelRepl where
  spawnedTask : List ManagementCommand × Except HCError LoopOutput

/-- Embeds ChannelRepl::new (repl.rs 15-39): after a successful TCP
connect it spawns handle_connection on its own task and returns Ok
immediately, whatever the spawned handshake or loop later does. -/
def ChannelRepl.new (tcpConnectOk : Bool) (actor_id : String) (conn : Connection)
    (alive : Bool) (encC : FrontendCommand → Bytes)
    (decM : Bytes → Option FrontendMessage) : Except ConnectError ChannelRepl :=
  if tcpConnectOk then
    .ok ⟨handle_connection actor_id conn.openSendOk conn.handshake alive encC decM
          conn.events⟩
  else .error .connectFailed

/-- Error an enqueue on the command queue can report. -/
inductive EnqueueError
  | SessionClosed
deriving DecidableEq

/-- Models a send on the command queue (tokio mpsc, repl.rs 22):
Sender.send succeeds iff the receiver side is still held.  The receiver
is owned by the spawned handler task (repl.rs 27-33) and is dropped when
that task returns. -/
def commandQueueSend (receiverAlive : Bool) (_ : FrontendCommand) :
    Except EnqueueError Unit :=
  if receiverAlive then .ok () else .error .SessionClosed

/-- After handle_connection returns, the spawned task ends and drops
command_rx, so the receiver side is no longer alive. -/
def receiverAliveAfterExit : Bool := false

/-- Models Rust str::trim over the character list of a String (ASCII
whitespace, which covers every input the REPL deals in). -/
def rsTrim (s : String) : String :=
  ⟨List.reverse (List.dropWhile Char.isWhitespace
      (List.reverse (List.dropWhile Char.isWhitespace s.data)))⟩

/-- Models Rust str::starts_with for a string pattern. -/
def rsStartsWith (s pat : String) : Bool :=
  List.isPrefixOf pat.data s.data

/-- Drops the first n characters of a String. -/
def rsDropChars (s : String) (n : Nat) : String :=
  ⟨s.data.drop n⟩

/-- Models Rust str::trim_start_matches for a string pattern: repeatedly
removes the pattern from the front while it is a leading pattern.  Fuel
is the character length of s; each strip removes at least one character
when pat is nonempty, so the fuel never runs out first. -/
def trimStartMatchesAux (pat : String) : Nat → String → String
  | 0, s => s
  | Nat.succ n, s =>
    if pat ≠ "" ∧ rsStartsWith s pat then
      trimStartMatchesAux pat n (rsDropChars s pat.data.length)
    else s

/-- Models Rust str::trim_start_matches with a string pattern. -/
def trimStartMatches (s pat : String) : String :=
  trimStartMatchesAux pat s.data.length s

/-- Embeds parse_command (repl.rs 128-153).  The help arm prints the
help text and bails with an empty message to skip command sending; the
fallback arm bails with the unknown-command message. -/
def parse_command (line : String) : Except String FrontendCommand :=
  let t := rsTrim line
  if t = "start" then .ok .StartActor
  else if t = "stop" then .ok .StopActor
  else if t = "build" then .ok .BuildActor
  else if t = "status" then .ok .GetStatus
  else if t = "exit" then .ok .Disconnect
  else if t = "quit" then .ok .Disconnect
  else if rsStartsWith t "change " then
    .ok (.ChangeRequest (trimStartMatches t "change "))
  else if t = "help" then .error ""
  else .error "Unknown command. Type 'help' for available commands."

/-- Embeds the per-line handling of run_repl (repl.rs 334-352): only a
line parse_command accepts is sent on the command queue. -/
def lineToQueuedCommand (line : String) : Option FrontendCommand :=
  match parse_command line with
  | .ok c => some c
  | .error _ => none

/-- Holds of a loop event that never stops the loop when the message
receiver is alive: a successfully sent non-Disconnect command, or any
inbound frame other than a frame error, end of stream, or a frame
decoding to ChannelClosed. -/
def nonTerminating : LoopEvent → Bool
  | .cmd .Disconnect _ => false
  | .cmd _ sendOk => sendOk
  | .frameOk none => true
  | .frameOk (some (.ChannelClosed _)) => false
  | .frameOk (some _) => true
  | .frameErr => false
  | .streamEnd => false

/-- Wire frame the loop emits for one event, when it emits one. -/
def outCmd (cid : String) (encC : FrontendCommand → Bytes) : LoopEvent → Option ManagementCommand
  | .cmd c true => some (.SendOnChannel cid (encC c))
  | _ => none

/-- Message the loop enqueues for one event, when it enqueues one. -/
def inMsg (decM : Bytes → Option FrontendMessage) : LoopEvent → Option FrontendMessage
  | .frameOk (some (.ChannelMessage _ _ b)) => decM b
  | _ => none

/-- Holds of a wire frame that references exactly the given channel id
as a SendOnChannel or CloseChannel. -/
def referencesOnly (cid : String) : ManagementCommand → Bool
  | .SendOnChannel ch _ => ch == cid
  | .CloseChannel ch => ch == cid
  | _ => false

/-- Sample encoder for concrete runs. -/
def enc0 : FrontendCommand → Bytes := fun _ => [0]

/-- Sample inbound payload value for concrete runs. -/
def msg0 : FrontendMessage := .Log "info" "hello"

/-- Sample decoder for concrete runs: only the payload [1] decodes. -/
def dec1 : Bytes → Option FrontendMessage := fun b => if b = [1] then some msg0 else none

end ManagerInterface

namespace ManagerInterface

theorem eventLoop_cmd_send (cid : String) (alive : Bool) (encC : FrontendCommand → Bytes)
    (decM : Bytes → Option FrontendMessage) {c : FrontendCommand}
    (hc : c ≠ FrontendCommand.Disconnect) (rest : List LoopEvent) :
    eventLoop cid alive encC decM (.cmd c true :: rest)
      = ⟨.SendOnChannel cid (encC c) :: (eventLoop cid alive encC decM rest).wire,
         (eventLoop cid alive encC decM rest).delivered,
         (eventLoop cid alive encC decM rest).exit⟩ := by
  simp [eventLoop, hc]

theorem eventLoop_chanmsg_live (cid ch : String) (s : ChannelParticipant)
    (encC : FrontendCommand → Bytes) (decM : Bytes → Option FrontendMessage)
    {b : Bytes} {m : FrontendMessage} (hm : decM b = some m) (rest : List LoopEvent) :
    eventLoop cid true encC decM (.frameOk (some (.ChannelMessage ch s b)) :: rest)
      = ⟨(eventLoop cid true encC decM rest).wire,
         m :: (eventLoop cid true encC decM rest).delivered,
         (eventLoop cid true encC decM rest).exit⟩ := by
  simp [eventLoop, hm]

theorem eventLoop_insert_skip (cid : String) (alive : Bool) (encC : FrontendCommand → Bytes)
    (decM : Bytes → Option FrontendMessage) (e : LoopEvent)
    (hskip : ∀ zs, eventLoop cid alive encC decM (e :: zs) = eventLoop cid alive encC decM zs) :
    ∀ xs ys, eventLoop cid alive encC decM (xs ++ e :: ys)
      = eventLoop cid alive encC decM (xs ++ ys) := by
  intro xs
  induction xs with
  | nil => intro ys; exact hskip ys
  | cons x xs ih =>
    intro ys
    cases x with
    | cmd c sendOk =>
      by_cases hc : c = FrontendCommand.Disconnect
      · subst hc; cases sendOk <;> simp [eventLoop]
      · cases sendOk
        · simp [eventLoop, hc]
        · simp [eventLoop, hc, ih]
    | frameOk r =>
      cases r with
      | none => simpa [eventLoop] using ih ys
      | some resp =>
        cases resp <;> simp [eventLoop, ih]
    | frameErr => simp [eventLoop]
    | streamEnd => simp [eventLoop]

theorem eventLoop_wire_mem (cid : String) (alive : Bool) (encC : FrontendCommand → Bytes)
    (decM : Bytes → Option FrontendMessage) :
    ∀ events, ∀ w ∈ (eventLoop cid alive encC decM events).wire,
      referencesOnly cid w = true := by
  intro events
  induction events with
  | nil => intro w hw; simp [eventLoop] at hw
  | cons e rest ih =>
    intro w hw
    cases e with
    | cmd c sendOk =>
      by_cases hc : c = FrontendCommand.Disconnect
      · subst hc
        cases sendOk
        · simp [eventLoop] at hw
        · simp [eventLoop] at hw
          simp [hw, referencesOnly]
      · cases sendOk
        · simp [eventLoop, hc] at hw
        · simp [eventLoop, hc] at hw
          rcases hw with h | h
          · simp [h, referencesOnly]
          · exact ih w h
    | frameOk r =>
      cases r with
      | none => exact ih w (by simpa [eventLoop] using hw)
      | some resp =>
        cases resp with
        | ChannelMessage ch s b =>
          cases hd : decM b with
          | none =>
            simp [eventLoop, hd] at hw
            exact ih w hw
          | some m =>
            cases alive
            · simp [eventLoop, hd] at hw
            · simp [eventLoop, hd] at hw
              exact ih w hw
        | ChannelClosed ch => simp [eventLoop] at hw
        | StoreCreated x => exact ih w (by simpa [eventLoop] using hw)
        | ActorStarted x => exact ih w (by simpa [eventLoop] using hw)
        | RequestedMessage x y => exact ih w (by simpa [eventLoop] using hw)
        | ChannelOpened x y => exact ih w (by simpa [eventLoop] using hw)
        | MessageSent x => exact ih w (by simpa [eventLoop] using hw)
        | Error x => exact ih w (by simpa [eventLoop] using hw)
    | frameErr => simp [eventLoop] at hw
    | streamEnd => simp [eventLoop] at hw

theorem eventLoop_wire_references (cid : String) (alive : Bool) (encC : FrontendCommand → Bytes)
    (decM : Bytes → Option FrontendMessage) (events : List LoopEvent) :
    ((eventLoop cid alive encC decM events).wire).all (referencesOnly cid) = true :=
  List.all_eq_true.mpr (eventLoop_wire_mem cid alive encC decM events)

end ManagerInterface

namespace ManagerInterface

/-- C1 (counterexample): with a connection whose first reply to
OpenChannel is Error "actor not found", ChannelRepl::new nevertheless
returns success — it does not fail with a rejection error, refuting the
claim that session creation blocks on the handshake and surfaces the
rejection to the constructor's caller. -/
theorem c1_counterexample :
    (ChannelRepl.new true "manager" ⟨true, .frame (some (.Error "actor not found")), []⟩
        true enc0 dec1).isOk = true
  ∧ (handle_connection "manager" true (.frame (some (.Error "actor not found")))
        true enc0 dec1 []).2
      = .error (.openRejected "actor not found") := ⟨rfl, rfl⟩

/-- C1 (amended): the handshake is asynchronous, not blocking the
constructor.  ChannelRepl::new spawns handle_connection and returns a
session immediately; when the server's first reply is Error{message},
the spawned handle_connection fails with the rejection message, but that
failure is only printed by the spawned task and never returned by
ChannelRepl::new. -/
theorem c1_async_handshake (actor_id msg : String) (alive : Bool)
    (encC : FrontendCommand → Bytes) (decM : Bytes → Option FrontendMessage)
    (events : List LoopEvent) :
    (ChannelRepl.new true actor_id ⟨true, .frame (some (.Error msg)), events⟩
        alive encC decM).isOk = true
  ∧ (handle_connection actor_id true (.frame (some (.Error msg))) alive encC decM events).2
      = .error (.openRejected msg) := ⟨rfl, rfl⟩

/-- C2 (counterexample): with channel id "c1" recorded at handshake, a
ChannelMessage bearing foreign id "c2" and a decodable payload is
enqueued on the message queue, and a ChannelClosed bearing foreign id
"c2" terminates the loop — refuting the claim that foreign-id frames are
ignored. -/
theorem c2_counterexample :
    eventLoop "c1" true enc0 dec1 [.frameOk (some (.ChannelMessage "c2" .External [1]))]
      = ⟨[], [msg0], .ranOut⟩
  ∧ eventLoop "c1" true enc0 dec1 [.frameOk (some (.ChannelClosed "c2"))]
      = ⟨[], [], .channelClosed⟩ := ⟨rfl, rfl⟩

/-- C2 (amended): the event loop never inspects the channel id of
inbound frames: a ChannelMessage with any channel id (the session's own
or a foreign one) whose payload decodes is enqueued on the message
queue, and a ChannelClosed with any channel id terminates the loop. -/
theorem c2_ignores_channel_id (cid ch : String) (alive : Bool) (s : ChannelParticipant)
    (encC : FrontendCommand → Bytes) (decM : Bytes → Option FrontendMessage)
    (b : Bytes) (m : FrontendMessage) (ys : List LoopEvent)
    (hm : decM b = some m) :
    eventLoop cid true encC decM (.frameOk (some (.ChannelMessage ch s b)) :: ys)
      = ⟨(eventLoop cid true encC decM ys).wire,
         m :: (eventLoop cid true encC decM ys).delivered,
         (eventLoop cid true encC decM ys).exit⟩
  ∧ eventLoop cid alive encC decM (.frameOk (some (.ChannelClosed ch)) :: ys)
      = ⟨[], [], .channelClosed⟩ :=
  ⟨eventLoop_chanmsg_live cid ch s encC decM hm ys, rfl⟩

/-- C2 witness: a concrete foreign-id message is delivered and the run
continues. -/
theorem c2_witness :
    eventLoop "c1" true enc0 dec1
        [.frameOk (some (.ChannelMessage "c2" .External [1])), .cmd .GetStatus true]
      = ⟨[.SendOnChannel "c1" [0]], [msg0], .ranOut⟩ :=
  (c2_ignores_channel_id "c1" "c2" true .External enc0 dec1 [1] msg0
      [.cmd .GetStatus true] rfl).1.trans rfl

/-- C3 (counterexample): after a successful handshake, a mid-stream
frame error makes the loop break, and handle_connection returns Ok —
not an error — refuting the claim that such runs report a connection
error that unwinds to the top-level REPL driver. -/
theorem c3_counterexample :
    (handle_connection "manager" true (.frame (some (.ChannelOpened "c1" .External)))
        true enc0 dec1 [.frameErr]).2
      = .ok ⟨[], [], .frameError⟩
  ∧ (Except.isOk (handle_connection "manager" true
        (.frame (some (.ChannelOpened "c1" .External))) true enc0 dec1 [.frameErr]).2)
      = true := ⟨rfl, rfl⟩

/-- C3 (amended): a mid-stream receive-side error (a frame error on
framed.next) terminates the loop, but handle_connection then returns
success; after a successful handshake handle_connection only returns an
error when a send failed, and even that error is confined to the
spawned task — ChannelRepl::new has already returned Ok to the REPL
driver whatever the connection later does. -/
theorem c3_errors_not_propagated (actor cid : String) (p : ChannelParticipant)
    (alive : Bool) (encC : FrontendCommand → Bytes)
    (decM : Bytes → Option FrontendMessage) :
    (∀ ys, eventLoop cid alive encC decM (.frameErr :: ys) = ⟨[], [], .frameError⟩)
  ∧ (∀ events, (eventLoop cid alive encC decM events).exit ≠ ExitKind.sendFailed →
      (handle_connection actor true (.frame (some (.ChannelOpened cid p)))
          alive encC decM events).2
        = .ok (eventLoop cid alive encC decM events))
  ∧ (∀ conn : Connection,
      (ChannelRepl.new true actor conn alive encC decM).isOk = true) := by
  refine ⟨fun ys => rfl, fun events h => ?_, fun conn => rfl⟩
  simp [handle_connection, h]

/-- C3 witness: the concrete frame-error run ends with an Ok report. -/
theorem c3_witness :
    (handle_connection "a" true (.frame (some (.ChannelOpened "c9" .External)))
        true enc0 dec1 [.frameErr]).2
      = .ok ⟨[], [], .frameError⟩ :=
  ((c3_errors_not_propagated "a" "c9" .External true enc0 dec1).2.1
      [.frameErr] (by decide)).trans rfl

/-- C4: enqueuing the Disconnect sentinel after any sequence of
non-Disconnect commands causes exactly one CloseChannel{channel_id} to
be sent as the final wire frame, the loop exits at once — ignoring
every later event, so termination awaits no server acknowledgement —
and any enqueue attempted after the handler task has exited fails with
SessionClosed because the command-queue receiver has been dropped. -/
theorem c4_disconnect_sequencing (cid : String) (alive : Bool)
    (encC : FrontendCommand → Bytes) (decM : Bytes → Option FrontendMessage)
    (ys : List LoopEvent) :
    (∀ cmds : List FrontendCommand, (∀ c ∈ cmds, c ≠ FrontendCommand.Disconnect) →
      eventLoop cid alive encC decM
          (cmds.map (fun c => LoopEvent.cmd c true) ++ LoopEvent.cmd .Disconnect true :: ys)
        = ⟨cmds.map (fun c => ManagementCommand.SendOnChannel cid (encC c))
             ++ [ManagementCommand.CloseChannel cid], [], .disconnected⟩)
  ∧ (∀ c, commandQueueSend receiverAliveAfterExit c = .error .SessionClosed) := by
  refine ⟨?_, fun c => rfl⟩
  intro cmds
  induction cmds with
  | nil => intro _; rfl
  | cons c cs ih =>
    intro h
    have hc := h c (List.mem_cons_self _ _)
    have ihr := ih (fun x hx => h x (List.mem_cons_of_mem _ hx))
    simp only [List.map_cons, List.cons_append,
      eventLoop_cmd_send cid alive encC decM hc, ihr]

/-- C4 witness: a concrete two-command run followed by Disconnect. -/
theorem c4_witness :
    eventLoop "c1" true enc0 dec1
        [.cmd .StartActor true, .cmd .GetStatus true, .cmd .Disconnect true,
         .cmd .BuildActor true]
      = ⟨[.SendOnChannel "c1" [0], .SendOnChannel "c1" [0], .CloseChannel "c1"],
         [], .disconnected⟩
  ∧ commandQueueSend receiverAliveAfterExit .GetStatus = .error .SessionClosed :=
  ⟨((c4_disconnect_sequencing "c1" true enc0 dec1 [.cmd .BuildActor true]).1
      [.StartActor, .GetStatus] (by decide)).trans rfl,
   (c4_disconnect_sequencing "c1" true enc0 dec1 []).2 .GetStatus⟩

end ManagerInterface

namespace ManagerInterface

/-- C5: over any run of non-terminating events, the loop emits exactly
one SendOnChannel per successfully received command, carrying the
commands' encoded payloads in enqueue order with no reordering,
duplication, or loss, and enqueues inbound ChannelMessage payloads on
the message queue in arrival order. -/
theorem c5_fifo (cid : String) (encC : FrontendCommand → Bytes)
    (decM : Bytes → Option FrontendMessage) :
    ∀ events : List LoopEvent, (∀ e ∈ events, nonTerminating e = true) →
      (eventLoop cid true encC decM events).wire = events.filterMap (outCmd cid encC)
    ∧ (eventLoop cid true encC decM events).delivered = events.filterMap (inMsg decM) := by
  intro events
  induction events with
  | nil => intro _; exact ⟨rfl, rfl⟩
  | cons e rest ih =>
    intro h
    have he := h e (List.mem_cons_self _ _)
    obtain ⟨ih1, ih2⟩ := ih (fun x hx => h x (List.mem_cons_of_mem _ hx))
    cases e with
    | cmd c sendOk =>
      cases sendOk with
      | false => cases c <;> simp [nonTerminating] at he
      | true =>
        cases c <;> simp [nonTerminating] at he <;>
          simp [eventLoop, outCmd, inMsg, ih1, ih2]
    | frameOk r =>
      cases r with
      | none => simpa [eventLoop, outCmd, inMsg] using ⟨ih1, ih2⟩
      | some resp =>
        cases resp with
        | ChannelMessage ch s b =>
          cases hd : decM b with
          | none => simpa [eventLoop, hd, outCmd, inMsg] using ⟨ih1, ih2⟩
          | some m => simpa [eventLoop, hd, outCmd, inMsg] using ⟨ih1, ih2⟩
        | ChannelClosed ch => simp [nonTerminating] at he
        | StoreCreated x => simpa [eventLoop, outCmd, inMsg] using ⟨ih1, ih2⟩
        | ActorStarted x => simpa [eventLoop, outCmd, inMsg] using ⟨ih1, ih2⟩
        | RequestedMessage x y => simpa [eventLoop, outCmd, inMsg] using ⟨ih1, ih2⟩
        | ChannelOpened x y => simpa [eventLoop, outCmd, inMsg] using ⟨ih1, ih2⟩
        | MessageSent x => simpa [eventLoop, outCmd, inMsg] using ⟨ih1, ih2⟩
        | Error x => simpa [eventLoop, outCmd, inMsg] using ⟨ih1, ih2⟩
    | frameErr => simp [nonTerminating] at he
    | streamEnd => simp [nonTerminating] at he

/-- C5 witness: a concrete interleaved run keeps both orders. -/
theorem c5_witness :
    (eventLoop "c1" true enc0 dec1
        [.cmd .StartActor true,
         .frameOk (some (.ChannelMessage "c1" .External [1])),
         .cmd .GetStatus true,
         .frameOk (some (.ChannelMessage "c1" .External [1]))]).wire
      = [.SendOnChannel "c1" [0], .SendOnChannel "c1" [0]]
  ∧ (eventLoop "c1" true enc0 dec1
        [.cmd .StartActor true,
         .frameOk (some (.ChannelMessage "c1" .External [1])),
         .cmd .GetStatus true,
         .frameOk (some (.ChannelMessage "c1" .External [1]))]).delivered
      = [msg0, msg0] := by
  have h := c5_fifo "c1" enc0 dec1
    [.cmd .StartActor true,
     .frameOk (some (.ChannelMessage "c1" .External [1])),
     .cmd .GetStatus true,
     .frameOk (some (.ChannelMessage "c1" .External [1]))] (by decide)
  exact ⟨h.1.trans rfl, h.2.trans rfl⟩

/-- C6: a frame whose bytes decode as no known ManagementResponse, and
a ChannelMessage whose inner payload does not decode as a
FrontendMessage, are dropped wherever they occur: the run's sends,
deliveries and outcome are exactly those of the same run without the
malformed frame, so later well-formed traffic is still processed. -/
theorem c6_malformed_nonfatal (cid : String) (alive : Bool)
    (encC : FrontendCommand → Bytes) (decM : Bytes → Option FrontendMessage) :
    (∀ xs ys, eventLoop cid alive encC decM (xs ++ LoopEvent.frameOk none :: ys)
        = eventLoop cid alive encC decM (xs ++ ys))
  ∧ (∀ xs ys ch s b, decM b = none →
      eventLoop cid alive encC decM
          (xs ++ LoopEvent.frameOk (some (.ChannelMessage ch s b)) :: ys)
        = eventLoop cid alive encC decM (xs ++ ys)) := by
  constructor
  · exact eventLoop_insert_skip cid alive encC decM _ (fun zs => rfl)
  · intro xs ys ch s b hb
    exact eventLoop_insert_skip cid alive encC decM _
      (fun zs => by simp [eventLoop, hb]) xs ys

/-- C6 witness: a malformed frame and an undecodable payload are both
dropped, and the following well-formed message is still delivered. -/
theorem c6_witness :
    eventLoop "c1" true enc0 dec1
        [.frameOk none, .frameOk (some (.ChannelMessage "c1" .External [1]))]
      = eventLoop "c1" true enc0 dec1
          [.frameOk (some (.ChannelMessage "c1" .External [1]))]
  ∧ eventLoop "c1" true enc0 dec1
        [.frameOk (some (.ChannelMessage "c1" .External [7])),
         .frameOk (some (.ChannelMessage "c1" .External [1]))]
      = eventLoop "c1" true enc0 dec1
          [.frameOk (some (.ChannelMessage "c1" .External [1]))]
  ∧ (eventLoop "c1" true enc0 dec1
        [.frameOk (some (.ChannelMessage "c1" .External [1]))]).delivered = [msg0] :=
  ⟨(c6_malformed_nonfatal "c1" true enc0 dec1).1 []
      [.frameOk (some (.ChannelMessage "c1" .External [1]))],
   (c6_malformed_nonfatal "c1" true enc0 dec1).2 []
      [.frameOk (some (.ChannelMessage "c1" .External [1]))] "c1" .External [7] rfl,
   rfl⟩

/-- C7: in every run, when the handshake reply is not a ChannelOpened
the only frame ever sent is the OpenChannel request itself (and when
even that send failed, nothing is sent); when the handshake reply is
ChannelOpened{channel_id}, the wire traffic is the OpenChannel request
followed by loop frames every one of which is a SendOnChannel or
CloseChannel carrying exactly that channel id. -/
theorem c7_channel_id_invariant (actor : String) (alive : Bool)
    (encC : FrontendCommand → Bytes) (decM : Bytes → Option FrontendMessage)
    (events : List LoopEvent) :
    (∀ hs, handshakeChannelId hs = none →
        (handle_connection actor true hs alive encC decM events).1
          = [openChannelCmd actor])
  ∧ (∀ hs cid, handshakeChannelId hs = some cid →
        (handle_connection actor true hs alive encC decM events).1
          = openChannelCmd actor :: (eventLoop cid alive encC decM events).wire
      ∧ ((eventLoop cid alive encC decM events).wire).all (referencesOnly cid) = true)
  ∧ (∀ hs, (handle_connection actor false hs alive encC decM events).1 = []) := by
  refine ⟨?_, ?_, fun hs => rfl⟩
  · intro hs hnone
    cases hs with
    | streamEnd => rfl
    | ioErr => rfl
    | frame r =>
      cases r with
      | none => rfl
      | some resp => cases resp <;> first
          | rfl
          | simp [handshakeChannelId] at hnone
  · intro hs cid hsome
    cases hs with
    | streamEnd => simp [handshakeChannelId] at hsome
    | ioErr => simp [handshakeChannelId] at hsome
    | frame r =>
      cases r with
      | none => simp [handshakeChannelId] at hsome
      | some resp =>
        cases resp <;> simp [handshakeChannelId] at hsome
        case ChannelOpened ch p =>
          subst hsome
          exact ⟨by simp [handle_connection],
                 eventLoop_wire_references ch alive encC decM events⟩

/-- C7 witness: concrete instances of the rejected-handshake case and
the opened case. -/
theorem c7_witness :
    (handle_connection "a" true (.frame (some (.Error "no"))) true enc0 dec1
        [.cmd .GetStatus true]).1 = [openChannelCmd "a"]
  ∧ (handle_connection "a" true (.frame (some (.ChannelOpened "c1" .External))) true enc0 dec1
        [.cmd .GetStatus true, .cmd .Disconnect true]).1
      = openChannelCmd "a"
          :: (eventLoop "c1" true enc0 dec1
                [.cmd .GetStatus true, .cmd .Disconnect true]).wire :=
  ⟨(c7_channel_id_invariant "a" true enc0 dec1 [.cmd .GetStatus true]).1
      (.frame (some (.Error "no"))) rfl,
   ((c7_channel_id_invariant "a" true enc0 dec1
        [.cmd .GetStatus true, .cmd .Disconnect true]).2.1
      (.frame (some (.ChannelOpened "c1" .External))) "c1" rfl).1⟩

/-- C9: when the message-queue receiver side has been dropped, the next
attempt to deliver a decodable inbound ChannelMessage makes the loop
stop at once with no frame sent from that point on — in particular no
CloseChannel — and handle_connection reports the run as Ok: the whole
connection's wire traffic is just the OpenChannel request, and the
result is success carrying the receiverDropped outcome. -/
theorem c9_receiver_dropped (actor cid ch : String) (p s : ChannelParticipant)
    (encC : FrontendCommand → Bytes) (decM : Bytes → Option FrontendMessage)
    (b : Bytes) (m : FrontendMessage) (ys : List LoopEvent)
    (hm : decM b = some m) :
    eventLoop cid false encC decM (.frameOk (some (.ChannelMessage ch s b)) :: ys)
      = ⟨[], [], .receiverDropped⟩
  ∧ handle_connection actor true (.frame (some (.ChannelOpened cid p))) false encC decM
        (.frameOk (some (.ChannelMessage ch s b)) :: ys)
      = ([openChannelCmd actor], .ok ⟨[], [], .receiverDropped⟩) := by
  have h1 : eventLoop cid false encC decM
      (.frameOk (some (.ChannelMessage ch s b)) :: ys) = ⟨[], [], .receiverDropped⟩ := by
    simp [eventLoop, hm]
  exact ⟨h1, by simp [handle_connection, h1]⟩

/-- C9 witness: a concrete run against a dropped receiver. -/
theorem c9_witness :
    handle_connection "a" true (.frame (some (.ChannelOpened "c1" .External))) false enc0 dec1
        [.frameOk (some (.ChannelMessage "c1" .External [1])), .cmd .GetStatus true]
      = ([openChannelCmd "a"], .ok ⟨[], [], .receiverDropped⟩) :=
  (c9_receiver_dropped "a" "c1" "c1" .External .External enc0 dec1 [1] msg0
      [.cmd .GetStatus true] rfl).2

end ManagerInterface

namespace ManagerInterface

theorem parse_command_change (line : String)
    (h : rsStartsWith (rsTrim line) "change " = true) :
    parse_command line
      = .ok (.ChangeRequest (trimStartMatches (rsTrim line) "change ")) := by
  have h1 : rsTrim line ≠ "start" := by
    intro e; rw [e] at h; exact absurd h (by decide)
  have h2 : rsTrim line ≠ "stop" := by
    intro e; rw [e] at h; exact absurd h (by decide)
  have h3 : rsTrim line ≠ "build" := by
    intro e; rw [e] at h; exact absurd h (by decide)
  have h4 : rsTrim line ≠ "status" := by
    intro e; rw [e] at h; exact absurd h (by decide)
  have h5 : rsTrim line ≠ "exit" := by
    intro e; rw [e] at h; exact absurd h (by decide)
  have h6 : rsTrim line ≠ "quit" := by
    intro e; rw [e] at h; exact absurd h (by decide)
  simp [parse_command, h1, h2, h3, h4, h5, h6, h]

theorem lineToQueuedCommand_error (line e : String)
    (h : parse_command line = .error e) : lineToQueuedCommand line = none := by
  simp [lineToQueuedCommand, h]

/-- C8 (counterexample): on the input "change change fix it" the code
yields the description "fix it" (all leading repetitions of the pattern
stripped), not the remaining text "change fix it" after the first
pattern — refuting the claim's description of the change arm. -/
theorem c8_counterexample :
    parse_command "change change fix it" = .ok (.ChangeRequest "fix it")
  ∧ parse_command "change change fix it" ≠ .ok (.ChangeRequest "change fix it") := by
  decide

/-- C8 (amended): parse_command maps the trimmed words start, stop,
build, status to StartActor, StopActor, BuildActor, GetStatus, maps
exit and quit to Disconnect, maps a trimmed line starting with the
pattern "change " to ChangeRequest whose description is the trimmed
line with all leading repetitions of the pattern removed, and for
"help" and every unrecognized line returns an error so that nothing
reaches the command queue. -/
theorem c8_parse_command (line : String) :
    (rsTrim line = "start" → parse_command line = .ok .StartActor)
  ∧ (rsTrim line = "stop" → parse_command line = .ok .StopActor)
  ∧ (rsTrim line = "build" → parse_command line = .ok .BuildActor)
  ∧ (rsTrim line = "status" → parse_command line = .ok .GetStatus)
  ∧ (rsTrim line = "exit" → parse_command line = .ok .Disconnect)
  ∧ (rsTrim line = "quit" → parse_command line = .ok .Disconnect)
  ∧ (rsStartsWith (rsTrim line) "change " = true →
       parse_command line = .ok (.ChangeRequest (trimStartMatches (rsTrim line) "change ")))
  ∧ (rsTrim line = "help" →
       parse_command line = .error "" ∧ lineToQueuedCommand line = none)
  ∧ (rsTrim line ≠ "start" → rsTrim line ≠ "stop" → rsTrim line ≠ "build" →
     rsTrim line ≠ "status" → rsTrim line ≠ "exit" → rsTrim line ≠ "quit" →
     rsStartsWith (rsTrim line) "change " = false →
       (parse_command line).isOk = false ∧ lineToQueuedCommand line = none) := by
  refine ⟨fun h => ?_, fun h => ?_, fun h => ?_, fun h => ?_, fun h => ?_, fun h => ?_,
    parse_command_change line, fun h => ?_, fun h1 h2 h3 h4 h5 h6 hsw => ?_⟩
  · simp only [parse_command]; rw [h]; rfl
  · simp only [parse_command]; rw [h]; rfl
  · simp only [parse_command]; rw [h]; rfl
  · simp only [parse_command]; rw [h]; rfl
  · simp only [parse_command]; rw [h]; rfl
  · simp only [parse_command]; rw [h]; rfl
  · have hp : parse_command line = .error "" := by
      simp only [parse_command]; rw [h]; rfl
    exact ⟨hp, lineToQueuedCommand_error line "" hp⟩
  · by_cases hh : rsTrim line = "help"
    · have hp : parse_command line = .error "" := by
        simp only [parse_command]; rw [hh]; rfl
      exact ⟨by rw [hp]; rfl, lineToQueuedCommand_error line "" hp⟩
    · have hp : parse_command line
          = .error "Unknown command. Type 'help' for available commands." := by
        simp only [parse_command]
        rw [hsw]
        simp [h1, h2, h3, h4, h5, h6, hh]
      exact ⟨by rw [hp]; rfl, lineToQueuedCommand_error line _ hp⟩

/-- C8 witness: concrete lines for the word arms, the help arm and an
unrecognized line. -/
theorem c8_witness :
    parse_command " start " = .ok .StartActor
  ∧ parse_command "quit" = .ok .Disconnect
  ∧ lineToQueuedCommand "help" = none
  ∧ lineToQueuedCommand "frobnicate" = none :=
  ⟨(c8_parse_command " start ").1 rfl,
   (c8_parse_command "quit").2.2.2.2.2.1 rfl,
   ((c8_parse_command "help").2.2.2.2.2.2.2.1 rfl).2,
   ((c8_parse_command "frobnicate").2.2.2.2.2.2.2.2 (by decide) (by decide) (by decide)
      (by decide) (by decide) (by decide) rfl).2⟩

/-- C10: on a line whose trimmed form starts with the pattern
"change ", parse_command returns ChangeRequest whose description is the
trimmed line with all leading repetitions of the pattern removed
(trim_start_matches); hence "change change fix it" yields "fix it"
rather than "change fix it", and the bare word "change" is rejected as
an unknown command. -/
theorem c10_change_strips_all (line : String)
    (h : rsStartsWith (rsTrim line) "change " = true) :
    parse_command line = .ok (.ChangeRequest (trimStartMatches (rsTrim line) "change "))
  ∧ parse_command "change change fix it" = .ok (.ChangeRequest "fix it")
  ∧ parse_command "change"
      = .error "Unknown command. Type 'help' for available commands." :=
  ⟨parse_command_change line h, rfl, rfl⟩

/-- C10 witness: the repeated-pattern line evaluated concretely. -/
theorem c10_witness :
    parse_command "change change fix it" = .ok (.ChangeRequest "fix it") :=
  (c10_change_strips_all "change change fix it" rfl).2.1

end ManagerInterface
